import Mathlib

/-!
Shallow embedding of `src/index.ts` of designer-rxk/project-anim.

The TypeScript file contains two concatenated variants of the same
letter-spawning animation script: the first variant spans lines 1-342
(it checks `doesOverlap` before adding a spawned body), the second
variant spans lines 344-647 (it adds the spawned body unconditionally).
Definitions suffixed `V1` embed the first variant, `V2` the second.

JavaScript numbers are modelled as rationals (`ℚ`), except for the
mouse-repulsion module, where `Vector.magnitude` takes a square root and
the model uses `ℝ`.  Each call to `Math.random()` is modelled by reading
the next value of an oracle `rho : ℕ → ℚ` at an explicit index; browser
guarantees (`Math.random() ∈ [0, 1)`, `window.scrollY ≥ 0`) become
hypotheses.  Calls into the matter-js physics library that this
repository does not author (`Bodies.fromVertices`, `Body.rotate`,
`Collision.collides`) are abstracted as parameters of the spawn
environment; matter-js functions whose bodies are small and relevant
(`Vector.magnitude`, `Vector.normalise`, `Vector.mult`, `Vector.sub`,
`Body.applyForce`, `Common.choose`) are embedded directly from the
matter-js sources.
-/

namespace ProjectAnim

/-- `const spacing = 75; const gridSize = spacing;` (both variants). -/
def gridSize : ℚ := 75

/-- `const maxHeightAboveViewport = 50;` (both variants). -/
def maxHeightAboveViewport : ℚ := 50

/-- `const maxAttempts = 25;` in the first variant. -/
def maxAttemptsV1 : ℕ := 25

/-- `const maxAttempts = 100;` in the second variant. -/
def maxAttemptsV2 : ℕ := 100

/-- The constant y offset of a spawn position in the first variant:
`-100 + Math.floor(...) * gridSize`. -/
def yBaseV1 : ℚ := -100

/-- The constant y offset of a spawn position in the second variant:
`-20 + Math.floor(...) * gridSize`. -/
def yBaseV2 : ℚ := -20

/-- One candidate position drawn inside the retry loop of
`getUniquePosition`, from two `Math.random()` results `a` and `b`:
`x = startX + Math.floor(a * spawnAreaWidth / gridSize) * gridSize`,
`y = yBase + Math.floor(b * maxHeightAboveViewport / gridSize) * gridSize`. -/
def candidate (startX yBase spawnAreaWidth a b : ℚ) : ℚ × ℚ :=
  (startX + (⌊a * spawnAreaWidth / gridSize⌋ : ℤ) * gridSize,
   yBase + (⌊b * maxHeightAboveViewport / gridSize⌋ : ℤ) * gridSize)

/-- The grid key of a position, as computed in `getUniquePosition`:
the source builds the string template with
`Math.floor(x / gridSize)` and `Math.floor(y / gridSize)`; since that
string rendering of a pair of integers is injective, the key is
modelled directly as the pair of integers. -/
def gridKey (p : ℚ × ℚ) : ℤ × ℤ :=
  (⌊p.1 / gridSize⌋, ⌊p.2 / gridSize⌋)

/-- The fallback position returned after the retry loop of
`getUniquePosition` has exhausted `maxAttempts` attempts:
`x = startX + Math.random() * spawnAreaWidth`,
`y = yBase + Math.random() * maxHeightAboveViewport`. -/
def fallbackPosition (startX yBase spawnAreaWidth a b : ℚ) : ℚ × ℚ :=
  (startX + a * spawnAreaWidth, yBase + b * maxHeightAboveViewport)

/-- The `while (attempts < maxAttempts)` retry loop of
`getUniquePosition`, with the remaining attempts as fuel.  `rho` is the
`Math.random()` oracle and `k` the index of its next unread value; each
attempt reads two values (one for `x`, one for `y`), and so does the
fallback.  Returns the position, the updated `occupiedGridCells` set and
the next oracle index. -/
def getUniquePositionAux (rho : ℕ → ℚ) (startX yBase spawnAreaWidth : ℚ) :
    ℕ → ℕ → Finset (ℤ × ℤ) → (ℚ × ℚ) × Finset (ℤ × ℤ) × ℕ
  | k, 0, occupied =>
      (fallbackPosition startX yBase spawnAreaWidth (rho k) (rho (k + 1)),
       occupied, k + 2)
  | k, fuel + 1, occupied =>
      let p := candidate startX yBase spawnAreaWidth (rho k) (rho (k + 1))
      if gridKey p ∈ occupied then
        getUniquePositionAux rho startX yBase spawnAreaWidth (k + 2) fuel occupied
      else
        (p, insert (gridKey p) occupied, k + 2)

/-- `getUniquePosition` of the first variant (lines 108-137). -/
def getUniquePositionV1 (rho : ℕ → ℚ) (startX spawnAreaWidth : ℚ) (k : ℕ)
    (occupied : Finset (ℤ × ℤ)) : (ℚ × ℚ) × Finset (ℤ × ℤ) × ℕ :=
  getUniquePositionAux rho startX yBaseV1 spawnAreaWidth k maxAttemptsV1 occupied

/-- `getUniquePosition` of the second variant (lines 444-473). -/
def getUniquePositionV2 (rho : ℕ → ℚ) (startX spawnAreaWidth : ℚ) (k : ℕ)
    (occupied : Finset (ℤ × ℤ)) : (ℚ × ℚ) × Finset (ℤ × ℤ) × ℕ :=
  getUniquePositionAux rho startX yBaseV2 spawnAreaWidth k maxAttemptsV2 occupied

/-- Environment of a `spawnLetters` run.  `collides b b` abstracts the
matter-js call `Collision.collides(b, b').collided`; `mkBody p k`
abstracts `Bodies.fromVertices(p.x, p.y, vertexSets, ...)` followed by
`Body.rotate` with a random angle, where `k` is the oracle index
feeding the body's random vertex-set choice, colour and rotation;
`rho` is the `Math.random()` oracle; `startX` and `spawnAreaWidth` are
the viewport-derived constants computed in `spawnLetters`. -/
structure SpawnEnv (Body : Type) where
  collides : Body → Body → Bool
  mkBody : ℚ × ℚ → ℕ → Body
  rho : ℕ → ℚ
  startX : ℚ
  spawnAreaWidth : ℚ

/-- The mutable state threaded through repeated `spawnLetter` ticks:
the physics world's body list (`Composite.add` pushes at the end), the
`occupiedGridCells` set, the `lettersSpawnedCount` counter, whether the
`setInterval` handle is still live, and the next `Math.random()` oracle
index. -/
structure SpawnState (Body : Type) where
  world : List Body
  occupiedGridCells : Finset (ℤ × ℤ)
  lettersSpawnedCount : ℕ
  intervalActive : Bool
  randIdx : ℕ

/-- `doesOverlap` of the first variant (lines 140-149): walks
`Composite.allBodies(engine.world)` and returns true as soon as
`Collision.collides(newBody, bodies[i])` reports a collision. -/
def doesOverlap {Body : Type} (E : SpawnEnv Body) (world : List Body)
    (newBody : Body) : Bool :=
  world.any fun b => E.collides newBody b

/-- The `for (let i = 0; i < maxAttempts && !positionFound; i++)` loop
of the first variant's `spawnLetter` (lines 163-189): each iteration
draws a unique position, builds and rotates a candidate body, and stops
as soon as `doesOverlap` fails.  Returns the accepted body (`none` when
every attempt overlapped), the updated `occupiedGridCells` and the next
oracle index; the two extra oracle reads per iteration feed
`Common.choose` and the random rotation angle. -/
def trySpawnV1 {Body : Type} (E : SpawnEnv Body) (world : List Body) :
    ℕ → Finset (ℤ × ℤ) → ℕ → Option Body × Finset (ℤ × ℤ) × ℕ
  | 0, occupied, k => (none, occupied, k)
  | fuel + 1, occupied, k =>
      let r := getUniquePositionV1 E.rho E.startX E.spawnAreaWidth k occupied
      let newLetterBody := E.mkBody r.1 r.2.2
      if doesOverlap E world newLetterBody then
        trySpawnV1 E world fuel r.2.1 (r.2.2 + 2)
      else
        (some newLetterBody, r.2.1, r.2.2 + 2)

/-- `spawnLetter` of the first variant (lines 152-199): return when the
quota is met, otherwise draw a random vertex set (one oracle read), run
the placement loop, add the accepted body (if any) and bump the
counter, and clear the interval once the quota is reached. -/
def spawnLetterV1 {Body : Type} (E : SpawnEnv Body) (totalLetters : ℕ)
    (st : SpawnState Body) : SpawnState Body :=
  if totalLetters ≤ st.lettersSpawnedCount then st
  else
    match trySpawnV1 E st.world maxAttemptsV1 st.occupiedGridCells (st.randIdx + 1) with
    | (some newLetterBody, occ2, k2) =>
        if totalLetters ≤ st.lettersSpawnedCount + 1 then
          { world := st.world ++ [newLetterBody]
            occupiedGridCells := occ2
            lettersSpawnedCount := st.lettersSpawnedCount + 1
            intervalActive := false
            randIdx := k2 }
        else
          { world := st.world ++ [newLetterBody]
            occupiedGridCells := occ2
            lettersSpawnedCount := st.lettersSpawnedCount + 1
            intervalActive := st.intervalActive
            randIdx := k2 }
    | (none, occ2, k2) =>
        if totalLetters ≤ st.lettersSpawnedCount then
          { st with occupiedGridCells := occ2, randIdx := k2, intervalActive := false }
        else
          { st with occupiedGridCells := occ2, randIdx := k2 }

/-- `spawnLetter` of the second variant (lines 476-508): return when
the quota is met, otherwise draw a random vertex set (one oracle read),
draw one unique position, and add the body unconditionally, with no
collision check; the extra oracle read feeds `Common.choose`. -/
def spawnLetterV2 {Body : Type} (E : SpawnEnv Body) (totalLetters : ℕ)
    (st : SpawnState Body) : SpawnState Body :=
  if totalLetters ≤ st.lettersSpawnedCount then st
  else
    match getUniquePositionV2 E.rho E.startX E.spawnAreaWidth (st.randIdx + 1)
        st.occupiedGridCells with
    | (p, occ2, k2) =>
        if totalLetters ≤ st.lettersSpawnedCount + 1 then
          { world := st.world ++ [E.mkBody p k2]
            occupiedGridCells := occ2
            lettersSpawnedCount := st.lettersSpawnedCount + 1
            intervalActive := false
            randIdx := k2 + 1 }
        else
          { world := st.world ++ [E.mkBody p k2]
            occupiedGridCells := occ2
            lettersSpawnedCount := st.lettersSpawnedCount + 1
            intervalActive := st.intervalActive
            randIdx := k2 + 1 }

/-- One `setInterval` tick of the first variant: the handler runs only
while the interval has not been cleared. -/
def stepV1 {Body : Type} (E : SpawnEnv Body) (totalLetters : ℕ)
    (st : SpawnState Body) : SpawnState Body :=
  if st.intervalActive then spawnLetterV1 E totalLetters st else st

/-- One `setInterval` tick of the second variant. -/
def stepV2 {Body : Type} (E : SpawnEnv Body) (totalLetters : ℕ)
    (st : SpawnState Body) : SpawnState Body :=
  if st.intervalActive then spawnLetterV2 E totalLetters st else st

/-- `const svgPaths = ["./letters/T.svg", "./letters/R.svg", "./letters/Y.svg"];`
(both variants). -/
def svgPaths : List String :=
  ["./letters/T.svg", "./letters/R.svg", "./letters/Y.svg"]

/-- `loadAllSvgs` of the first variant (lines 75-90), applied to the
already-fetched, already-parsed per-asset path vertex sets `assets`
(one list entry per file of `svgPaths`) and to the current
`(loadedVertexSets, number of fetch calls so far)` state: one fetch per
path, and a push into `loadedVertexSets` only when the asset yielded at
least one path.  The concurrent completion order of the `Promise.all`
is modelled as the list order. -/
def loadAllSvgsV1 {VSet : Type} (assets : List (List VSet))
    (st : List (List VSet) × ℕ) : List (List VSet) × ℕ :=
  (st.1 ++ assets.filter (fun vertexSets => !vertexSets.isEmpty),
   st.2 + svgPaths.length)

/-- `loadAllSvgs` of the second variant (lines 417-426): one fetch per
path, then every asset's vertex sets are pushed into
`loadedVertexSets`, in `svgPaths` order, with no emptiness guard. -/
def loadAllSvgsV2 {VSet : Type} (assets : List (List VSet))
    (st : List (List VSet) × ℕ) : List (List VSet) × ℕ :=
  (st.1 ++ assets, st.2 + svgPaths.length)

/-- The asset-loading part of the first variant's initialization:
`loadAllSvgs()` is called exactly once, at line 205. -/
def initCacheV1 {VSet : Type} (assets : List (List VSet)) :
    List (List VSet) × ℕ :=
  loadAllSvgsV1 assets ([], 0)

/-- The asset-loading part of the second variant's initialization:
`loadAllSvgs()` is called twice, at line 514 and again at line 569. -/
def initCacheV2 {VSet : Type} (assets : List (List VSet)) :
    List (List VSet) × ℕ :=
  loadAllSvgsV2 assets (loadAllSvgsV2 assets ([], 0))

/-- A matter-js 2D vector over the reals (used by the mouse-repulsion
module, whose `Vector.magnitude` takes a square root). -/
structure Vec where
  x : ℝ
  y : ℝ

/-- matter-js `Vector.sub`. -/
def Vec.sub (a b : Vec) : Vec :=
  ⟨a.x - b.x, a.y - b.y⟩

/-- matter-js `Vector.magnitude`:
`Math.sqrt(vector.x * vector.x + vector.y * vector.y)`. -/
noncomputable def Vec.magnitude (v : Vec) : ℝ :=
  Real.sqrt (v.x * v.x + v.y * v.y)

/-- matter-js `Vector.normalise`: the zero vector when the magnitude is
zero, otherwise the vector divided by its magnitude. -/
noncomputable def Vec.normalise (v : Vec) : Vec :=
  if v.magnitude = 0 then ⟨0, 0⟩ else ⟨v.x / v.magnitude, v.y / v.magnitude⟩

/-- matter-js `Vector.mult`. -/
def Vec.mult (v : Vec) (scalar : ℝ) : Vec :=
  ⟨v.x * scalar, v.y * scalar⟩

/-- The part of a matter-js body's state read and written by
`Body.applyForce`: its position, accumulated force and torque. -/
structure RBody where
  position : Vec
  force : Vec
  torque : ℝ

/-- matter-js `Body.applyForce(body, position, force)`:
adds the force to `body.force` and the moment
`offset.x * force.y - offset.y * force.x` (with
`offset = position - body.position`) to `body.torque`. -/
def applyForce (body : RBody) (position : Vec) (force : Vec) : RBody :=
  { body with
    force := ⟨body.force.x + force.x, body.force.y + force.y⟩
    torque := body.torque +
      ((position.x - body.position.x) * force.y -
        (position.y - body.position.y) * force.x) }

/-- The body of the `forEach` in `repelLetters` (identical at lines
285-300 and 600-615), acting on one body of the world: when the
distance from the body to the mouse is below 75, apply a repulsive
force of magnitude `0.001 * (100 - distance)` along the normalised
direction away from the mouse, at the body's own position. -/
noncomputable def repelBody (mousePosition : Vec) (body : RBody) : RBody :=
  let distance := (body.position.sub mousePosition).magnitude
  if distance < 75 then
    let direction := (body.position.sub mousePosition).normalise
    let forceMagnitude := 0.001 * (100 - distance)
    applyForce body body.position (direction.mult forceMagnitude)
  else body

/-- `repelLetters`: `Composite.allBodies(engine.world).forEach(...)`,
modelled as a map over the world's body list. -/
noncomputable def repelLetters (mousePosition : Vec) (bodies : List RBody) :
    List RBody :=
  bodies.map (repelBody mousePosition)

/-- A matter-js 2D vector over the rationals (used by the scroll-force
module, which involves no square root). -/
structure QVec where
  x : ℚ
  y : ℚ

/-- The force/torque state of a body, over the rationals. -/
structure QBody where
  position : QVec
  force : QVec
  torque : ℚ

/-- matter-js `Body.applyForce` over the rationals. -/
def applyForceQ (body : QBody) (position : QVec) (force : QVec) : QBody :=
  { body with
    force := ⟨body.force.x + force.x, body.force.y + force.y⟩
    torque := body.torque +
      ((position.x - body.position.x) * force.y -
        (position.y - body.position.y) * force.x) }

/-- The force built in the first variant's `pushLettersUpwards`
(lines 305-318): `{ x: 0, y: -(0.0005 * scrollDelta) }`. -/
def scrollForceV1 (scrollDelta : ℚ) : QVec :=
  ⟨0, -(0.0005 * scrollDelta)⟩

/-- `pushLettersUpwards` of the first variant: when the page scrolled
down (`currentScrollY > previousScrollY`), apply the scroll force to
every body at its own position; in every case `previousScrollY` is
updated to `currentScrollY` (returned as the second component). -/
def pushLettersUpwardsV1 (currentScrollY previousScrollY : ℚ)
    (bodies : List QBody) : List QBody × ℚ :=
  if previousScrollY < currentScrollY then
    (bodies.map fun body =>
      applyForceQ body body.position
        (scrollForceV1 (currentScrollY - previousScrollY)),
     currentScrollY)
  else
    (bodies, currentScrollY)

/-- The force built in the second variant's `pushLettersUpwards`
(lines 618-625): `{ x: 0, y: -(0.00005 * scrollY) }`. -/
def scrollForceV2 (scrollY : ℚ) : QVec :=
  ⟨0, -(0.00005 * scrollY)⟩

/-- `pushLettersUpwards` of the second variant: applies the scroll
force to every body unconditionally. -/
def pushLettersUpwardsV2 (scrollY : ℚ) (bodies : List QBody) : List QBody :=
  bodies.map fun body =>
    applyForceQ body body.position (scrollForceV2 scrollY)

/-- matter-js `Common.choose(choices)`:
`choices[Math.floor(Common.random() * choices.length)]`, with `r` the
random draw; out-of-range indexing yields `undefined`, modelled as
`none`. -/
def commonChoose (r : ℚ) (choices : List String) : Option String :=
  if ⌊r * (choices.length : ℚ)⌋ < 0 then none
  else choices[(⌊r * (choices.length : ℚ)⌋).toNat]?

/-- The render options a spawned letter body is created with (identical
at lines 165-177 and 485-498): `color = Common.choose(["#CF6337"])`,
then `fillStyle: color, strokeStyle: color, lineWidth: 1`. -/
structure LetterRender where
  fillStyle : Option String
  strokeStyle : Option String
  lineWidth : ℚ

/-- Builds the render options of a spawned letter body from the random
draw `r` consumed by `Common.choose`. -/
def spawnLetterRender (r : ℚ) : LetterRender :=
  let color := commonChoose r ["#CF6337"]
  { fillStyle := color, strokeStyle := color, lineWidth := 1 }

/-- The script state governing `spawnLetters` re-entry: the
`lettersSpawned` flag (line 51 and line 393) and how many spawn
intervals have been started so far. -/
structure AppState where
  lettersSpawned : Bool
  intervalsStarted : ℕ

/-- The entry and interval-creating effect of `spawnLetters
(totalLetters, spawnInterval)` (identical guard at lines 92-94 and
428-430): return immediately when `lettersSpawned` is already set,
otherwise set the flag and start one spawn interval.  The numeric
arguments configure the started interval and do not affect the guard. -/
def spawnLettersCall (totalLetters spawnInterval : ℕ) (st : AppState) :
    AppState :=
  if st.lettersSpawned then st
  else { lettersSpawned := true, intervalsStarted := st.intervalsStarted + 1 }

/-- Concrete environment in which every pair of bodies collides
(an admissible instance of the abstracted `Collision.collides`). -/
def ceEnv : SpawnEnv ℕ :=
  { collides := fun _ _ => true
    mkBody := fun _ _ => 0
    rho := fun _ => 1/2
    startX := 0
    spawnAreaWidth := 150 }

/-- Concrete state with one body (labelled 7) already in the world. -/
def ceState : SpawnState ℕ :=
  { world := [7]
    occupiedGridCells := ∅
    lettersSpawnedCount := 0
    intervalActive := true
    randIdx := 0 }

/-- Concrete environment in which no pair of bodies collides. -/
def okEnv : SpawnEnv ℕ :=
  { collides := fun _ _ => false
    mkBody := fun _ _ => 0
    rho := fun _ => 1/2
    startX := 0
    spawnAreaWidth := 150 }

/-- Concrete spawn state with an empty world. -/
def okState : SpawnState ℕ :=
  { world := []
    occupiedGridCells := ∅
    lettersSpawnedCount := 0
    intervalActive := true
    randIdx := 0 }

/-- Concrete mouse position at the origin. -/
def c5Mouse : Vec :=
  ⟨0, 0⟩

/-- Concrete body resting 100 pixels to the right of the origin. -/
def c5Body : RBody :=
  ⟨⟨100, 0⟩, ⟨0, 0⟩, 0⟩

/-- Dichotomy of the retry loop of `getUniquePosition`: either the
returned position came from the grid branch, whose grid key was free
and is inserted into `occupiedGridCells`, or the occupied set is left
unchanged (the fallback). -/
theorem getUniquePositionAux_occ_cases (rho : ℕ → ℚ)
    (startX yBase spawnAreaWidth : ℚ) :
    ∀ (fuel k : ℕ) (occupied : Finset (ℤ × ℤ)),
      (gridKey (getUniquePositionAux rho startX yBase spawnAreaWidth k fuel occupied).1
          ∉ occupied ∧
        (getUniquePositionAux rho startX yBase spawnAreaWidth k fuel occupied).2.1 =
          insert
            (gridKey (getUniquePositionAux rho startX yBase spawnAreaWidth k fuel occupied).1)
            occupied) ∨
      (getUniquePositionAux rho startX yBase spawnAreaWidth k fuel occupied).2.1 =
        occupied := by
  intro fuel
  induction fuel with
  | zero => intro k occupied; exact Or.inr rfl
  | succ fuel ih =>
      intro k occupied
      by_cases h :
        gridKey (candidate startX yBase spawnAreaWidth (rho k) (rho (k + 1))) ∈ occupied
      · have hred : getUniquePositionAux rho startX yBase spawnAreaWidth k (fuel + 1)
            occupied =
            getUniquePositionAux rho startX yBase spawnAreaWidth (k + 2) fuel occupied := by
          simp [getUniquePositionAux, h]
        rw [hred]
        exact ih (k + 2) occupied
      · have hred : getUniquePositionAux rho startX yBase spawnAreaWidth k (fuel + 1)
            occupied =
            (candidate startX yBase spawnAreaWidth (rho k) (rho (k + 1)),
             insert (gridKey (candidate startX yBase spawnAreaWidth (rho k) (rho (k + 1))))
               occupied,
             k + 2) := by
          simp [getUniquePositionAux, h]
        rw [hred]
        exact Or.inl ⟨h, rfl⟩

/-- The retry loop consumes at most two oracle reads per attempt plus
two for the fallback. -/
theorem getUniquePositionAux_randIdx_le (rho : ℕ → ℚ)
    (startX yBase spawnAreaWidth : ℚ) :
    ∀ (fuel k : ℕ) (occupied : Finset (ℤ × ℤ)),
      (getUniquePositionAux rho startX yBase spawnAreaWidth k fuel occupied).2.2 ≤
        k + 2 * fuel + 2 := by
  intro fuel
  induction fuel with
  | zero => intro k occupied; simp [getUniquePositionAux]
  | succ fuel ih =>
      intro k occupied
      by_cases h :
        gridKey (candidate startX yBase spawnAreaWidth (rho k) (rho (k + 1))) ∈ occupied
      · have hred : getUniquePositionAux rho startX yBase spawnAreaWidth k (fuel + 1)
            occupied =
            getUniquePositionAux rho startX yBase spawnAreaWidth (k + 2) fuel occupied := by
          simp [getUniquePositionAux, h]
        rw [hred]
        have := ih (k + 2) occupied
        omega
      · have hred : getUniquePositionAux rho startX yBase spawnAreaWidth k (fuel + 1)
            occupied =
            (candidate startX yBase spawnAreaWidth (rho k) (rho (k + 1)),
             insert (gridKey (candidate startX yBase spawnAreaWidth (rho k) (rho (k + 1))))
               occupied,
             k + 2) := by
          simp [getUniquePositionAux, h]
        rw [hred]
        show k + 2 ≤ k + 2 * (fuel + 1) + 2
        omega

/-- When every candidate grid key is already occupied, the retry loop
runs through all of its fuel and returns the fallback position, leaving
the occupied set unchanged. -/
theorem getUniquePositionAux_all_occupied (rho : ℕ → ℚ)
    (startX yBase spawnAreaWidth : ℚ) :
    ∀ (fuel k : ℕ) (occupied : Finset (ℤ × ℤ)),
      (∀ j : ℕ,
        gridKey (candidate startX yBase spawnAreaWidth (rho j) (rho (j + 1))) ∈ occupied) →
      getUniquePositionAux rho startX yBase spawnAreaWidth k fuel occupied =
        (fallbackPosition startX yBase spawnAreaWidth (rho (k + 2 * fuel))
          (rho (k + 2 * fuel + 1)),
         occupied, k + 2 * fuel + 2) := by
  intro fuel
  induction fuel with
  | zero => intro k occupied hocc; simp [getUniquePositionAux]
  | succ fuel ih =>
      intro k occupied hocc
      have h :
          gridKey (candidate startX yBase spawnAreaWidth (rho k) (rho (k + 1))) ∈
            occupied := hocc k
      have hred : getUniquePositionAux rho startX yBase spawnAreaWidth k (fuel + 1)
          occupied =
          getUniquePositionAux rho startX yBase spawnAreaWidth (k + 2) fuel occupied := by
        simp [getUniquePositionAux, h]
      rw [hred, ih (k + 2) occupied hocc]
      have h1 : k + 2 + 2 * fuel = k + 2 * (fuel + 1) := by ring
      rw [h1]

/-- Claim C4: whenever `getUniquePosition` (either variant) returns a
position from inside its retry loop, that position's grid key was not
in `occupiedGridCells` before the call and is added by the call; the
only other possibility is the fallback, which leaves the occupied set
unchanged.  Consequently two sequential grid-branch return values have
distinct grid keys. -/
theorem claim_C4 (rho rho2 : ℕ → ℚ) (startX spawnAreaWidth : ℚ) (k k2 : ℕ)
    (occupied occ1 occ2 : Finset (ℤ × ℤ)) (p1 p2 : ℚ × ℚ) (k1' k2' : ℕ) :
    (getUniquePositionV1 rho startX spawnAreaWidth k occupied = (p1, occ1, k1') →
      (gridKey p1 ∉ occupied ∧ occ1 = insert (gridKey p1) occupied) ∨ occ1 = occupied)
    ∧ (getUniquePositionV2 rho startX spawnAreaWidth k occupied = (p1, occ1, k1') →
      (gridKey p1 ∉ occupied ∧ occ1 = insert (gridKey p1) occupied) ∨ occ1 = occupied)
    ∧ (getUniquePositionV1 rho startX spawnAreaWidth k occupied = (p1, occ1, k1') →
      gridKey p1 ∉ occupied → occ1 = insert (gridKey p1) occupied →
      getUniquePositionV1 rho2 startX spawnAreaWidth k2 occ1 = (p2, occ2, k2') →
      gridKey p2 ∉ occ1 →
      gridKey p1 ≠ gridKey p2) := by
  refine ⟨?_, ?_, ?_⟩
  · intro h
    have := getUniquePositionAux_occ_cases rho startX yBaseV1 spawnAreaWidth
      maxAttemptsV1 k occupied
    rw [getUniquePositionV1] at h
    rw [h] at this
    exact this
  · intro h
    have := getUniquePositionAux_occ_cases rho startX yBaseV2 spawnAreaWidth
      maxAttemptsV2 k occupied
    rw [getUniquePositionV2] at h
    rw [h] at this
    exact this
  · intro h1 hfree1 hins1 h2 hfree2 heq
    apply hfree2
    rw [hins1, heq]
    exact Finset.mem_insert_self _ _

/-- Claim C9: `getUniquePosition` (either variant) is total: the
retry loop runs at most `maxAttempts` iterations, each consuming two
oracle reads, and when every candidate grid key is occupied the call
returns the unconstrained random fallback position after exactly
`maxAttempts` failed attempts, so a position is always returned. -/
theorem claim_C9 (rho : ℕ → ℚ) (startX spawnAreaWidth : ℚ) (k : ℕ)
    (occupied : Finset (ℤ × ℤ)) :
    ((getUniquePositionV1 rho startX spawnAreaWidth k occupied).2.2 ≤
      k + 2 * maxAttemptsV1 + 2)
    ∧ ((getUniquePositionV2 rho startX spawnAreaWidth k occupied).2.2 ≤
      k + 2 * maxAttemptsV2 + 2)
    ∧ ((∀ j : ℕ,
        gridKey (candidate startX yBaseV1 spawnAreaWidth (rho j) (rho (j + 1))) ∈ occupied) →
      getUniquePositionV1 rho startX spawnAreaWidth k occupied =
        (fallbackPosition startX yBaseV1 spawnAreaWidth (rho (k + 2 * maxAttemptsV1))
          (rho (k + 2 * maxAttemptsV1 + 1)),
         occupied, k + 2 * maxAttemptsV1 + 2))
    ∧ ((∀ j : ℕ,
        gridKey (candidate startX yBaseV2 spawnAreaWidth (rho j) (rho (j + 1))) ∈ occupied) →
      getUniquePositionV2 rho startX spawnAreaWidth k occupied =
        (fallbackPosition startX yBaseV2 spawnAreaWidth (rho (k + 2 * maxAttemptsV2))
          (rho (k + 2 * maxAttemptsV2 + 1)),
         occupied, k + 2 * maxAttemptsV2 + 2)) := by
  refine ⟨?_, ?_, ?_, ?_⟩
  · exact getUniquePositionAux_randIdx_le rho startX yBaseV1 spawnAreaWidth
      maxAttemptsV1 k occupied
  · exact getUniquePositionAux_randIdx_le rho startX yBaseV2 spawnAreaWidth
      maxAttemptsV2 k occupied
  · intro hocc
    exact getUniquePositionAux_all_occupied rho startX yBaseV1 spawnAreaWidth
      maxAttemptsV1 k occupied hocc
  · intro hocc
    exact getUniquePositionAux_all_occupied rho startX yBaseV2 spawnAreaWidth
      maxAttemptsV2 k occupied hocc

/-- Claim C10: since `maxHeightAboveViewport = 50` is smaller than
`gridSize = 75`, the floor in the y computation is zero for every
random draw in `[0, 1)`, so every grid-branch position has constant y
(`-100` in the first variant, `-20` in the second), every grid key has
the constant y cell (`-2`, resp. `-1`), and the x coordinate ranges
over the at most `⌈spawnAreaWidth / gridSize⌉` grid columns of the
spawn area. -/
theorem claim_C10 (startX spawnAreaWidth a b : ℚ) (ha0 : 0 ≤ a) (ha1 : a < 1)
    (hb0 : 0 ≤ b) (hb1 : b < 1) (hW : 0 < spawnAreaWidth) :
    (candidate startX yBaseV1 spawnAreaWidth a b).2 = -100
    ∧ (candidate startX yBaseV2 spawnAreaWidth a b).2 = -20
    ∧ (gridKey (candidate startX yBaseV1 spawnAreaWidth a b)).2 = -2
    ∧ (gridKey (candidate startX yBaseV2 spawnAreaWidth a b)).2 = -1
    ∧ ∃ n : ℤ, 0 ≤ n ∧ n < ⌈spawnAreaWidth / gridSize⌉
        ∧ (candidate startX yBaseV1 spawnAreaWidth a b).1 = startX + n * gridSize
        ∧ (candidate startX yBaseV2 spawnAreaWidth a b).1 = startX + n * gridSize := by
  have hfloor : ⌊b * maxHeightAboveViewport / gridSize⌋ = 0 := by
    rw [Int.floor_eq_zero_iff]
    constructor
    · have : (0:ℚ) ≤ b * maxHeightAboveViewport / gridSize := by
        apply div_nonneg
        · exact mul_nonneg hb0 (by norm_num [maxHeightAboveViewport])
        · norm_num [gridSize]
      simpa using this
    · show b * maxHeightAboveViewport / gridSize < 1
      rw [div_lt_one (by norm_num [gridSize] : (0:ℚ) < gridSize)]
      rw [maxHeightAboveViewport, gridSize]
      nlinarith
  have hy1 : (candidate startX yBaseV1 spawnAreaWidth a b).2 = -100 := by
    simp [candidate, hfloor, yBaseV1]
  have hy2 : (candidate startX yBaseV2 spawnAreaWidth a b).2 = -20 := by
    simp [candidate, hfloor, yBaseV2]
  refine ⟨hy1, hy2, ?_, ?_, ?_⟩
  · rw [gridKey, hy1]
    norm_num [gridSize]
  · rw [gridKey, hy2]
    norm_num [gridSize]
  · refine ⟨⌊a * spawnAreaWidth / gridSize⌋, ?_, ?_, rfl, rfl⟩
    · apply Int.floor_nonneg.mpr
      apply div_nonneg (mul_nonneg ha0 hW.le)
      norm_num [gridSize]
    · have h1 : (⌊a * spawnAreaWidth / gridSize⌋ : ℚ) ≤ a * spawnAreaWidth / gridSize :=
        Int.floor_le _
      have h2 : a * spawnAreaWidth / gridSize < spawnAreaWidth / gridSize := by
        have hg : (0:ℚ) < gridSize := by norm_num [gridSize]
        have haw : a * spawnAreaWidth < spawnAreaWidth := by nlinarith
        exact (div_lt_div_iff_of_pos_right hg).mpr haw
      have h3 : spawnAreaWidth / gridSize ≤ (⌈spawnAreaWidth / gridSize⌉ : ℚ) :=
        Int.le_ceil _
      exact_mod_cast lt_of_le_of_lt h1 (lt_of_lt_of_le h2 h3)

/-- A body accepted by the placement loop of the first variant's
`spawnLetter` passed the `doesOverlap` check against the world as it
was when the loop ran. -/
theorem trySpawnV1_some_no_overlap {Body : Type} (E : SpawnEnv Body)
    (world : List Body) :
    ∀ (fuel : ℕ) (occupied : Finset (ℤ × ℤ)) (k : ℕ) (b : Body)
      (occ2 : Finset (ℤ × ℤ)) (k2 : ℕ),
      trySpawnV1 E world fuel occupied k = (some b, occ2, k2) →
      doesOverlap E world b = false := by
  intro fuel
  induction fuel with
  | zero =>
      intro occupied k b occ2 k2 h
      simp [trySpawnV1] at h
  | succ fuel ih =>
      intro occupied k b occ2 k2 h
      simp only [trySpawnV1] at h
      split at h
      · exact ih _ _ _ _ _ h
      · next hcond =>
          have hb := congrArg Prod.fst h
          simp only at hb
          cases hb
          simpa using hcond

/-- Claim C1 (amended to the first variant): every body the first
variant's `spawnLetter` adds to the world does not overlap, per
`doesOverlap`, any body present in the world at the moment of the
check. -/
theorem claim_C1 {Body : Type} (E : SpawnEnv Body) (totalLetters : ℕ)
    (st : SpawnState Body) (b : Body)
    (h : (spawnLetterV1 E totalLetters st).world = st.world ++ [b]) :
    doesOverlap E st.world b = false := by
  by_cases hguard : totalLetters ≤ st.lettersSpawnedCount
  · rw [spawnLetterV1, if_pos hguard] at h
    have hlen := congrArg List.length h
    simp at hlen
  · rcases hres : trySpawnV1 E st.world maxAttemptsV1 st.occupiedGridCells
      (st.randIdx + 1) with ⟨b?, occ2, k2⟩
    cases b? with
    | none =>
        have hw : (spawnLetterV1 E totalLetters st).world = st.world := by
          rw [spawnLetterV1, if_neg hguard, hres]
          split
          · next nb2 occ3 k3 heq => exact absurd heq (by simp)
          · next occ3 k3 heq => split <;> rfl
        rw [hw] at h
        have hlen := congrArg List.length h
        simp at hlen
    | some nb =>
        have hw : (spawnLetterV1 E totalLetters st).world = st.world ++ [nb] := by
          rw [spawnLetterV1, if_neg hguard, hres]
          split
          · next nb2 occ3 k3 heq =>
              simp only [Prod.mk.injEq, Option.some.injEq] at heq
              obtain ⟨h1, h2, h3⟩ := heq
              subst h1
              split <;> rfl
          · next occ3 k3 heq => exact absurd heq (by simp)
        rw [hw] at h
        have hb : nb = b := by simpa using h
        subst hb
        exact trySpawnV1_some_no_overlap E st.world _ _ _ _ _ _ hres

/-- Counterexample to claim C1 as stated: the second variant's
`spawnLetter` adds its body via `Composite.add` without any collision
check, so under a collision relation by which the new body collides
with the already-present body it still gets added. -/
theorem claim_C1_counterexample :
    (spawnLetterV2 ceEnv 5 ceState).world = [7, 0]
    ∧ doesOverlap ceEnv [7] 0 = true := by
  constructor
  · have hres : getUniquePositionV2 ceEnv.rho ceEnv.startX ceEnv.spawnAreaWidth
        (ceState.randIdx + 1) ceState.occupiedGridCells =
        (((75 : ℚ), (-20 : ℚ)), ({((1 : ℤ), (-1 : ℤ))} : Finset (ℤ × ℤ)), 3) := by
      norm_num [ceEnv, ceState, getUniquePositionV2, getUniquePositionAux,
        candidate, gridKey, gridSize, maxHeightAboveViewport, yBaseV2,
        maxAttemptsV2]
    rw [spawnLetterV2, if_neg (by norm_num [ceState]), hres]
    norm_num [ceEnv, ceState]
  · simp [doesOverlap, ceEnv]

/-- Below quota, the first variant's `spawnLetter` either accepts a
placed body (bumping the counter and clearing the interval exactly when
the quota is reached) or rejects every placement attempt and leaves the
world and counter unchanged. -/
theorem spawnLetterV1_shape {Body : Type} (E : SpawnEnv Body)
    (totalLetters : ℕ) (st : SpawnState Body)
    (hguard : ¬ totalLetters ≤ st.lettersSpawnedCount) :
    (∃ nb occ2 k2,
      trySpawnV1 E st.world maxAttemptsV1 st.occupiedGridCells (st.randIdx + 1) =
        (some nb, occ2, k2)
      ∧ spawnLetterV1 E totalLetters st =
        (if totalLetters ≤ st.lettersSpawnedCount + 1 then
          ({ world := st.world ++ [nb]
             occupiedGridCells := occ2
             lettersSpawnedCount := st.lettersSpawnedCount + 1
             intervalActive := false
             randIdx := k2 } : SpawnState Body)
        else
          { world := st.world ++ [nb]
            occupiedGridCells := occ2
            lettersSpawnedCount := st.lettersSpawnedCount + 1
            intervalActive := st.intervalActive
            randIdx := k2 }))
    ∨ (∃ occ2 k2,
      trySpawnV1 E st.world maxAttemptsV1 st.occupiedGridCells (st.randIdx + 1) =
        (none, occ2, k2)
      ∧ spawnLetterV1 E totalLetters st =
        { st with occupiedGridCells := occ2, randIdx := k2 }) := by
  rcases hres : trySpawnV1 E st.world maxAttemptsV1 st.occupiedGridCells
    (st.randIdx + 1) with ⟨b?, occ2, k2⟩
  cases b? with
  | some nb =>
      left
      refine ⟨nb, occ2, k2, rfl, ?_⟩
      rw [spawnLetterV1, if_neg hguard]
      simp only [hres]
  | none =>
      right
      refine ⟨occ2, k2, rfl, ?_⟩
      rw [spawnLetterV1, if_neg hguard]
      simp only [hres]
      rw [if_neg hguard]

/-- Below quota, the second variant's `spawnLetter` adds the freshly
built body, bumps the counter, and clears the interval exactly when the
quota is reached. -/
theorem spawnLetterV2_shape {Body : Type} (E : SpawnEnv Body)
    (totalLetters : ℕ) (st : SpawnState Body)
    (hguard : ¬ totalLetters ≤ st.lettersSpawnedCount) :
    ∃ p occ2 k2,
      getUniquePositionV2 E.rho E.startX E.spawnAreaWidth (st.randIdx + 1)
        st.occupiedGridCells = (p, occ2, k2)
      ∧ spawnLetterV2 E totalLetters st =
        (if totalLetters ≤ st.lettersSpawnedCount + 1 then
          ({ world := st.world ++ [E.mkBody p k2]
             occupiedGridCells := occ2
             lettersSpawnedCount := st.lettersSpawnedCount + 1
             intervalActive := false
             randIdx := k2 + 1 } : SpawnState Body)
        else
          { world := st.world ++ [E.mkBody p k2]
            occupiedGridCells := occ2
            lettersSpawnedCount := st.lettersSpawnedCount + 1
            intervalActive := st.intervalActive
            randIdx := k2 + 1 }) := by
  rcases hres : getUniquePositionV2 E.rho E.startX E.spawnAreaWidth (st.randIdx + 1)
    st.occupiedGridCells with ⟨p, occ2, k2⟩
  refine ⟨p, occ2, k2, rfl, ?_⟩
  rw [spawnLetterV2, if_neg hguard]
  simp only [hres]

/-- The first variant's `spawnLetter` never pushes the spawn counter
past the quota. -/
theorem spawnLetterV1_count_le {Body : Type} (E : SpawnEnv Body)
    (totalLetters : ℕ) (st : SpawnState Body)
    (h : st.lettersSpawnedCount ≤ totalLetters) :
    (spawnLetterV1 E totalLetters st).lettersSpawnedCount ≤ totalLetters := by
  by_cases hguard : totalLetters ≤ st.lettersSpawnedCount
  · rw [spawnLetterV1, if_pos hguard]
    exact h
  · rcases spawnLetterV1_shape E totalLetters st hguard with
      ⟨nb, occ2, k2, -, heq⟩ | ⟨occ2, k2, -, heq⟩
    · rw [heq]
      split
      · show st.lettersSpawnedCount + 1 ≤ totalLetters
        omega
      · show st.lettersSpawnedCount + 1 ≤ totalLetters
        omega
    · rw [heq]
      exact h

/-- The second variant's `spawnLetter` never pushes the spawn counter
past the quota. -/
theorem spawnLetterV2_count_le {Body : Type} (E : SpawnEnv Body)
    (totalLetters : ℕ) (st : SpawnState Body)
    (h : st.lettersSpawnedCount ≤ totalLetters) :
    (spawnLetterV2 E totalLetters st).lettersSpawnedCount ≤ totalLetters := by
  by_cases hguard : totalLetters ≤ st.lettersSpawnedCount
  · rw [spawnLetterV2, if_pos hguard]
    exact h
  · rcases spawnLetterV2_shape E totalLetters st hguard with ⟨p, occ2, k2, -, heq⟩
    rw [heq]
    split
    · show st.lettersSpawnedCount + 1 ≤ totalLetters
      omega
    · show st.lettersSpawnedCount + 1 ≤ totalLetters
      omega

/-- One interval tick of the first variant preserves the quota bound. -/
theorem stepV1_count_le {Body : Type} (E : SpawnEnv Body) (totalLetters : ℕ)
    (st : SpawnState Body) (h : st.lettersSpawnedCount ≤ totalLetters) :
    (stepV1 E totalLetters st).lettersSpawnedCount ≤ totalLetters := by
  rw [stepV1]
  split
  · exact spawnLetterV1_count_le E totalLetters st h
  · exact h

/-- One interval tick of the second variant preserves the quota bound. -/
theorem stepV2_count_le {Body : Type} (E : SpawnEnv Body) (totalLetters : ℕ)
    (st : SpawnState Body) (h : st.lettersSpawnedCount ≤ totalLetters) :
    (stepV2 E totalLetters st).lettersSpawnedCount ≤ totalLetters := by
  rw [stepV2]
  split
  · exact spawnLetterV2_count_le E totalLetters st h
  · exact h

/-- Claim C3: starting from any state within the quota, the spawn
counter never exceeds `totalLetters` along any sequence of interval
ticks (both variants); the call of `spawnLetter` that reaches the
quota clears the interval; and once the quota is met, `spawnLetter` is
a no-op, so no further body is added. -/
theorem claim_C3 {Body : Type} (E : SpawnEnv Body) (totalLetters : ℕ)
    (st : SpawnState Body) :
    (st.lettersSpawnedCount ≤ totalLetters →
      ∀ n : ℕ,
        ((stepV1 E totalLetters)^[n] st).lettersSpawnedCount ≤ totalLetters
        ∧ ((stepV2 E totalLetters)^[n] st).lettersSpawnedCount ≤ totalLetters)
    ∧ (st.lettersSpawnedCount < totalLetters →
        (totalLetters ≤ (spawnLetterV1 E totalLetters st).lettersSpawnedCount →
          (spawnLetterV1 E totalLetters st).intervalActive = false)
        ∧ (totalLetters ≤ (spawnLetterV2 E totalLetters st).lettersSpawnedCount →
          (spawnLetterV2 E totalLetters st).intervalActive = false))
    ∧ (totalLetters ≤ st.lettersSpawnedCount →
        spawnLetterV1 E totalLetters st = st ∧ spawnLetterV2 E totalLetters st = st) := by
  refine ⟨?_, ?_, ?_⟩
  · intro h n
    induction n generalizing st with
    | zero => exact ⟨h, h⟩
    | succ n ih =>
        rw [Function.iterate_succ_apply, Function.iterate_succ_apply]
        exact ⟨(ih _ (stepV1_count_le E totalLetters st h)).1,
               (ih _ (stepV2_count_le E totalLetters st h)).2⟩
  · intro hlt
    have hguard : ¬ totalLetters ≤ st.lettersSpawnedCount := by omega
    constructor
    · intro hreach
      rcases spawnLetterV1_shape E totalLetters st hguard with
        ⟨nb, occ2, k2, -, heq⟩ | ⟨occ2, k2, -, heq⟩
      · rw [heq] at hreach ⊢
        have hcond : totalLetters ≤ st.lettersSpawnedCount + 1 := by
          revert hreach
          split
          · intro hreach
            exact hreach
          · intro hreach
            exact hreach
        rw [if_pos hcond]
      · rw [heq] at hreach
        exact absurd hreach hguard
    · intro hreach
      rcases spawnLetterV2_shape E totalLetters st hguard with ⟨p, occ2, k2, -, heq⟩
      rw [heq] at hreach ⊢
      have hcond : totalLetters ≤ st.lettersSpawnedCount + 1 := by
        revert hreach
        split
        · intro hreach
          exact hreach
        · intro hreach
          exact hreach
      rw [if_pos hcond]
  · intro hge
    constructor
    · rw [spawnLetterV1, if_pos hge]
    · rw [spawnLetterV2, if_pos hge]

/-- Concrete run of claim C4: two sequential grid-branch calls of
`getUniquePositionV1` on a 150-wide spawn area return positions with
distinct grid keys. -/
theorem claim_C4_witness :
    gridKey ((75 : ℚ), (-100 : ℚ)) ≠ gridKey ((0 : ℚ), (-100 : ℚ)) := by
  have h1 : getUniquePositionV1 (fun _ => 1/2) 0 150 0 ∅ =
      (((75 : ℚ), (-100 : ℚ)), ({((1 : ℤ), (-2 : ℤ))} : Finset (ℤ × ℤ)), 2) := by
    norm_num [getUniquePositionV1, getUniquePositionAux, candidate, gridKey,
      gridSize, maxHeightAboveViewport, yBaseV1, maxAttemptsV1]
  have hfree1 : gridKey ((75 : ℚ), (-100 : ℚ)) ∉ (∅ : Finset (ℤ × ℤ)) := by
    norm_num
  have hins1 : ({((1 : ℤ), (-2 : ℤ))} : Finset (ℤ × ℤ)) =
      insert (gridKey ((75 : ℚ), (-100 : ℚ))) ∅ := by
    norm_num [gridKey, gridSize]
  have h2 : getUniquePositionV1 (fun _ => 0) 0 150 0 {((1 : ℤ), (-2 : ℤ))} =
      (((0 : ℚ), (-100 : ℚ)),
       ({((0 : ℤ), (-2 : ℤ)), ((1 : ℤ), (-2 : ℤ))} : Finset (ℤ × ℤ)), 2) := by
    norm_num [getUniquePositionV1, getUniquePositionAux, candidate, gridKey,
      gridSize, maxHeightAboveViewport, yBaseV1, maxAttemptsV1]
  have hfree2 : gridKey ((0 : ℚ), (-100 : ℚ)) ∉
      ({((1 : ℤ), (-2 : ℤ))} : Finset (ℤ × ℤ)) := by
    norm_num [gridKey, gridSize]
  exact (claim_C4 (fun _ => 1/2) (fun _ => 0) 0 150 0 0 ∅
    {((1 : ℤ), (-2 : ℤ))} {((0 : ℤ), (-2 : ℤ)), ((1 : ℤ), (-2 : ℤ))}
    ((75 : ℚ), (-100 : ℚ)) ((0 : ℚ), (-100 : ℚ)) 2 2).2.2
    h1 hfree1 hins1 h2 hfree2

/-- Concrete run of claim C9: with the single reachable grid cell
already occupied, `getUniquePositionV1` exhausts its 25 attempts and
returns the fallback position after 52 oracle reads. -/
theorem claim_C9_witness :
    getUniquePositionV1 (fun _ => 1/2) 0 150 0 {((1 : ℤ), (-2 : ℤ))} =
      (fallbackPosition 0 yBaseV1 150 (1/2) (1/2),
       ({((1 : ℤ), (-2 : ℤ))} : Finset (ℤ × ℤ)), 52) := by
  have hocc : ∀ j : ℕ,
      gridKey (candidate 0 yBaseV1 150 ((fun _ => (1:ℚ)/2) j) ((fun _ => (1:ℚ)/2) (j + 1)))
        ∈ ({((1 : ℤ), (-2 : ℤ))} : Finset (ℤ × ℤ)) := by
    intro j
    norm_num [candidate, gridKey, gridSize, maxHeightAboveViewport, yBaseV1]
  exact (claim_C9 (fun _ => 1/2) 0 150 0 {((1 : ℤ), (-2 : ℤ))}).2.2.1 hocc

/-- Concrete run of claim C10: at random draws a = b = 1/2 on a
150-wide spawn area both variants produce the constant y coordinate
and a column inside the spawn area. -/
theorem claim_C10_witness :
    (candidate 0 yBaseV1 150 (1/2) (1/2)).2 = -100
    ∧ (candidate 0 yBaseV2 150 (1/2) (1/2)).2 = -20
    ∧ (gridKey (candidate 0 yBaseV1 150 (1/2) (1/2))).2 = -2
    ∧ (gridKey (candidate 0 yBaseV2 150 (1/2) (1/2))).2 = -1
    ∧ ∃ n : ℤ, 0 ≤ n ∧ n < ⌈(150 : ℚ) / gridSize⌉
        ∧ (candidate 0 yBaseV1 150 (1/2) (1/2)).1 = 0 + n * gridSize
        ∧ (candidate 0 yBaseV2 150 (1/2) (1/2)).1 = 0 + n * gridSize :=
  claim_C10 0 150 (1/2) (1/2) (by norm_num) (by norm_num) (by norm_num)
    (by norm_num) (by norm_num)

/-- Concrete run of claim C1: in a collision-free environment the first
variant's `spawnLetter` adds one body, and that body passed the
`doesOverlap` check. -/
theorem claim_C1_witness :
    (spawnLetterV1 okEnv 1 okState).world = okState.world ++ [0]
    ∧ doesOverlap okEnv okState.world 0 = false := by
  have hpos : getUniquePositionV1 okEnv.rho okEnv.startX okEnv.spawnAreaWidth
      (okState.randIdx + 1) okState.occupiedGridCells =
      (((75 : ℚ), (-100 : ℚ)), ({((1 : ℤ), (-2 : ℤ))} : Finset (ℤ × ℤ)), 3) := by
    norm_num [okEnv, okState, getUniquePositionV1, getUniquePositionAux,
      candidate, gridKey, gridSize, maxHeightAboveViewport, yBaseV1,
      maxAttemptsV1]
  have hres : trySpawnV1 okEnv okState.world maxAttemptsV1
      okState.occupiedGridCells (okState.randIdx + 1) =
      (some 0, ({((1 : ℤ), (-2 : ℤ))} : Finset (ℤ × ℤ)), 5) := by
    rw [show maxAttemptsV1 = 24 + 1 from rfl, trySpawnV1, hpos]
    rfl
  have h : (spawnLetterV1 okEnv 1 okState).world = okState.world ++ [0] := by
    rw [spawnLetterV1, if_neg (by norm_num [okState]), hres]
    rfl
  exact ⟨h, claim_C1 okEnv 1 okState 0 h⟩

/-- Concrete run of claim C3: starting from an empty world with quota
one, two interval ticks of either variant keep the spawn counter at or
below the quota. -/
theorem claim_C3_witness :
    okState.lettersSpawnedCount ≤ 1
    ∧ (((stepV1 okEnv 1)^[2] okState).lettersSpawnedCount ≤ 1
       ∧ ((stepV2 okEnv 1)^[2] okState).lettersSpawnedCount ≤ 1) :=
  ⟨by norm_num [okState], (claim_C3 okEnv 1 okState).1 (by norm_num [okState]) 2⟩

/-- Claim C2, evaluated on the second variant's initialization: with
the three asset files all parsed, the two `loadAllSvgs()` calls at
lines 514 and 569 fetch every asset twice and leave two cache entries
per asset (six in total), where the first variant's single call at line
205 performs three fetches. -/
theorem claim_C2 {VSet : Type} (assets : List (List VSet))
    (h3 : assets.length = 3) :
    (initCacheV2 assets).1 = assets ++ assets
    ∧ (initCacheV2 assets).1.length = 6
    ∧ (initCacheV2 assets).2 = 6
    ∧ (initCacheV1 assets).2 = 3 := by
  refine ⟨?_, ?_, ?_, ?_⟩
  · simp [initCacheV2, loadAllSvgsV2]
  · simp [initCacheV2, loadAllSvgsV2, h3]
  · simp [initCacheV2, loadAllSvgsV2, svgPaths]
  · simp [initCacheV1, loadAllSvgsV1, svgPaths]

/-- Concrete run of claim C2's evaluation, on three one-path assets. -/
theorem claim_C2_witness :
    ([[(0 : ℕ)], [1], [2]] : List (List ℕ)).length = 3
    ∧ ((initCacheV2 [[(0 : ℕ)], [1], [2]]).1 =
        [[(0 : ℕ)], [1], [2]] ++ [[(0 : ℕ)], [1], [2]]
      ∧ (initCacheV2 [[(0 : ℕ)], [1], [2]]).1.length = 6
      ∧ (initCacheV2 [[(0 : ℕ)], [1], [2]]).2 = 6
      ∧ (initCacheV1 [[(0 : ℕ)], [1], [2]]).2 = 3) :=
  ⟨by norm_num, claim_C2 [[(0 : ℕ)], [1], [2]] (by norm_num)⟩

/-- Claim C5: `repelLetters` applies the repulsive force to a body
exactly when its distance to the mouse is below 75; a body at distance
75 or more is returned unchanged, and a world of only far bodies is
left unchanged as a whole. -/
theorem claim_C5 (mousePosition : Vec) (body : RBody) (bodies : List RBody) :
    ((body.position.sub mousePosition).magnitude < 75 →
      repelBody mousePosition body =
        applyForce body body.position
          (((body.position.sub mousePosition).normalise).mult
            (0.001 * (100 - (body.position.sub mousePosition).magnitude))))
    ∧ (75 ≤ (body.position.sub mousePosition).magnitude →
      repelBody mousePosition body = body)
    ∧ ((∀ b ∈ bodies, 75 ≤ (b.position.sub mousePosition).magnitude) →
      repelLetters mousePosition bodies = bodies) := by
  refine ⟨?_, ?_, ?_⟩
  · intro h
    simp only [repelBody]
    rw [if_pos h]
  · intro h
    simp only [repelBody]
    rw [if_neg (not_lt.mpr h)]
  · intro h
    induction bodies with
    | nil => rfl
    | cons b bs ih =>
        have hb : repelBody mousePosition b = b := by
          simp only [repelBody]
          rw [if_neg (not_lt.mpr (h b (by simp)))]
        have hbs := ih (fun x hx => h x (by simp [hx]))
        simp only [repelLetters, List.map_cons, hb]
        simp only [repelLetters] at hbs
        rw [hbs]

/-- Concrete run of claim C5: a body 100 pixels from the mouse is
outside the 75-pixel repulsion radius and is left unchanged. -/
theorem claim_C5_witness :
    75 ≤ (c5Body.position.sub c5Mouse).magnitude
    ∧ repelBody c5Mouse c5Body = c5Body := by
  have hmag : (c5Body.position.sub c5Mouse).magnitude = 100 := by
    have h1 : (c5Body.position.sub c5Mouse).x * (c5Body.position.sub c5Mouse).x +
        (c5Body.position.sub c5Mouse).y * (c5Body.position.sub c5Mouse).y =
        (10000 : ℝ) := by
      norm_num [c5Body, c5Mouse, Vec.sub]
    rw [Vec.magnitude, h1, show (10000 : ℝ) = 100 ^ 2 by norm_num]
    exact Real.sqrt_sq (by norm_num)
  have h75 : (75 : ℝ) ≤ (c5Body.position.sub c5Mouse).magnitude := by
    rw [hmag]
    norm_num
  exact ⟨h75, (claim_C5 c5Mouse c5Body []).2.1 h75⟩

/-- Claim C6: every force built by `pushLettersUpwards` has zero x
component; on a downward scroll the first variant applies exactly the
force `(0, -(0.0005 * scrollDelta))` (pointing upward) to every body,
and on an upward or unchanged scroll it applies no force at all; the
second variant's force is `(0, -(0.00005 * scrollY))`, upward or zero
whenever the scroll offset is nonnegative. -/
theorem claim_C6 (currentScrollY previousScrollY scrollY : ℚ)
    (bodies : List QBody) :
    (scrollForceV1 (currentScrollY - previousScrollY)).x = 0
    ∧ (scrollForceV2 scrollY).x = 0
    ∧ (previousScrollY < currentScrollY →
        (scrollForceV1 (currentScrollY - previousScrollY)).y ≤ 0
        ∧ (scrollForceV1 (currentScrollY - previousScrollY)).y =
            -(0.0005 * (currentScrollY - previousScrollY))
        ∧ (pushLettersUpwardsV1 currentScrollY previousScrollY bodies).1 =
            bodies.map fun body =>
              applyForceQ body body.position
                (scrollForceV1 (currentScrollY - previousScrollY)))
    ∧ (currentScrollY ≤ previousScrollY →
        (pushLettersUpwardsV1 currentScrollY previousScrollY bodies).1 = bodies)
    ∧ (0 ≤ scrollY → (scrollForceV2 scrollY).y ≤ 0)
    ∧ pushLettersUpwardsV2 scrollY bodies =
        bodies.map fun body =>
          applyForceQ body body.position (scrollForceV2 scrollY) := by
  refine ⟨rfl, rfl, ?_, ?_, ?_, rfl⟩
  · intro h
    refine ⟨?_, rfl, ?_⟩
    · show -(0.0005 * (currentScrollY - previousScrollY)) ≤ 0
      nlinarith
    · rw [pushLettersUpwardsV1, if_pos h]
  · intro h
    rw [pushLettersUpwardsV1, if_neg (not_lt.mpr h)]
  · intro h
    show -(0.00005 * scrollY) ≤ 0
    nlinarith

/-- Concrete run of claim C6: scrolling down from offset 0 to 10 yields
an upward force, and the second variant's force at offset 5 points
upward as well. -/
theorem claim_C6_witness :
    ((0 : ℚ) ≤ 5) ∧ (scrollForceV2 5).y ≤ 0 :=
  ⟨by norm_num, (claim_C6 10 0 5 []).2.2.2.2.1 (by norm_num)⟩

/-- Claim C7: `Common.choose` on the one-element palette returns the
palette colour for every random draw in `[0, 1)`, so every spawned
letter's render options carry `fillStyle` and `strokeStyle` both equal
to the colour `#CF6337`. -/
theorem claim_C7 (r : ℚ) (h0 : 0 ≤ r) (h1 : r < 1) :
    commonChoose r ["#CF6337"] = some "#CF6337"
    ∧ (spawnLetterRender r).fillStyle = some "#CF6337"
    ∧ (spawnLetterRender r).strokeStyle = some "#CF6337"
    ∧ (spawnLetterRender r).fillStyle = (spawnLetterRender r).strokeStyle := by
  have hr1 : r * (((["#CF6337"] : List String).length : ℕ) : ℚ) = r := by
    norm_num
  have hfloor : ⌊r * (((["#CF6337"] : List String).length : ℕ) : ℚ)⌋ = 0 := by
    rw [hr1]
    exact Int.floor_eq_zero_iff.mpr ⟨h0, h1⟩
  have hchoose : commonChoose r ["#CF6337"] = some "#CF6337" := by
    rw [commonChoose, hfloor]
    norm_num
  exact ⟨hchoose, by simp [spawnLetterRender, hchoose],
    by simp [spawnLetterRender, hchoose], by simp [spawnLetterRender]⟩

/-- Concrete run of claim C7 at the random draw one half. -/
theorem claim_C7_witness :
    ((0 : ℚ) ≤ 1/2) ∧ ((1/2 : ℚ) < 1)
    ∧ commonChoose (1/2) ["#CF6337"] = some "#CF6337"
    ∧ (spawnLetterRender (1/2)).fillStyle = some "#CF6337"
    ∧ (spawnLetterRender (1/2)).strokeStyle = some "#CF6337"
    ∧ (spawnLetterRender (1/2)).fillStyle = (spawnLetterRender (1/2)).strokeStyle :=
  ⟨by norm_num, by norm_num, claim_C7 (1/2) (by norm_num) (by norm_num)⟩

/-- Claim C8: `spawnLetters` is idempotent through the `lettersSpawned`
flag: a repeated call, with any arguments, leaves the state exactly as
after the first call; the first call on a fresh state sets the flag and
starts one interval, and any call on a flagged state is the
identity. -/
theorem claim_C8 (t1 i1 t2 i2 : ℕ) (st : AppState) :
    spawnLettersCall t2 i2 (spawnLettersCall t1 i1 st) = spawnLettersCall t1 i1 st
    ∧ (st.lettersSpawned = false →
        (spawnLettersCall t1 i1 st).lettersSpawned = true
        ∧ (spawnLettersCall t1 i1 st).intervalsStarted = st.intervalsStarted + 1)
    ∧ (st.lettersSpawned = true → spawnLettersCall t1 i1 st = st) := by
  refine ⟨?_, ?_, ?_⟩
  · by_cases h : st.lettersSpawned
    · simp [spawnLettersCall, h]
    · simp [spawnLettersCall, h]
  · intro h
    simp [spawnLettersCall, h]
  · intro h
    simp [spawnLettersCall, h]

/-- Concrete run of claim C8: calling `spawnLetters(200, 25)` twice on
a fresh state equals calling it once. -/
theorem claim_C8_witness :
    spawnLettersCall 200 25 (spawnLettersCall 200 25 ⟨false, 0⟩) =
      spawnLettersCall 200 25 ⟨false, 0⟩ :=
  (claim_C8 200 25 200 25 ⟨false, 0⟩).1

end ProjectAnim
